import Mathlib

/-!
Verification of the voice-activity-detection core of the niri-transcribe
repository against its natural-language specification.

The embedding below is a shallow model, in Lean 4, of:

* `src/services/voice-activity-detector.js` (class `VoiceActivityDetector`):
  the segmentation state machine, its timers, the adaptive threshold
  estimator, and the frame assembler (`processAudio`);
* `src/utils/audio-analysis.js` (class `AudioAnalysis`):
  the pure per-frame feature extractors.

Modelling conventions:

* JavaScript numbers holding audio amplitudes, energies and thresholds are
  modelled as rationals (`ℚ`), abstracting IEEE-754 rounding.
* Timestamps (`Date.now()`) are natural numbers of milliseconds; elapsed
  durations computed by JavaScript subtraction are `Int`, matching the
  possibility of a negative difference.  JavaScript coerces `null` to `0`
  in arithmetic and treats both `null` and `0` as falsy; `jsNum` and
  `jsTruthyNat` reproduce this for the nullable millisecond timestamps.
* `setTimeout` handles are modelled by `TimerHandle`: `unset` is a null
  field, `pending d` is a scheduled callback with absolute deadline `d`,
  and `fired` is a handle whose callback has already run but whose field
  was never nulled (such a handle is still truthy, exactly as in the
  source).  Callbacks of pending timers whose deadline has passed are run,
  earliest deadline first, before the next frame is processed (`fireDue`),
  matching the single-threaded event-loop ordering.
* `processFrame` takes the frame's RMS energy as an explicit parameter:
  the source computes `energy = calculateEnergy(frame)` (root mean square,
  `Math.sqrt`) and every theorem below is stated for arbitrary energies,
  which subsumes the RMS values; concrete traces use constant frames,
  whose RMS is exactly the absolute amplitude.
-/

namespace NiriVAD

/-- Model of a JavaScript `setTimeout` handle field: `unset` is `null`,
`pending d` is a live timer with absolute deadline `d` (ms), `fired` is a
handle whose callback already ran but which was never assigned `null`
(still truthy for `if (this.timer)` checks, as in the source). -/
inductive TimerHandle where
  | unset
  | pending (deadline : Nat)
  | fired
deriving Repr, DecidableEq

/-- Truthiness of a timer handle field (`null` is falsy, any handle is
truthy, fired or not). -/
def TimerHandle.isSet : TimerHandle → Bool
  | .unset => false
  | _ => true

/-- Reason attached to an emitted `speechEnd` event:
`silence` (offset timer) or `max_duration` (forced cut). -/
inductive EndReason where
  | silence
  | max_duration
deriving Repr, DecidableEq

/-- Observable notifications of the detector.  `speechStart false` is the
plain `emit('speechStart')` of the onset-timer callback; `speechStart true`
is the `emit('speechStart', { reason: 'continued' })` of `forceEndSpeech`. -/
inductive Event where
  | speechStart (continued : Bool)
  | speechEnd (audio : List ℚ) (duration : Int) (timestamp : Option Nat) (reason : EndReason)
  | silenceTimeout
deriving Repr, DecidableEq

/-- Recognizer for the `silenceTimeout` notification. -/
def Event.isSilence : Event → Bool
  | .silenceTimeout => true
  | _ => false

/-- JavaScript coercion of a nullable millisecond timestamp to a number in
arithmetic: `null` becomes `0`. -/
def jsNum (o : Option Nat) : Int :=
  ((o.getD 0 : Nat) : Int)

/-- JavaScript truthiness of a nullable millisecond timestamp:
`null` and `0` are falsy. -/
def jsTruthyNat (o : Option Nat) : Bool :=
  match o with
  | none => false
  | some n => n != 0

/-- The mutable state of one `VoiceActivityDetector` instance: the
configuration fields, detection state, sample buffers, adaptive-threshold
state and the three timers, exactly the fields assigned in the constructor
(`voice-activity-detector.js`, lines 8-30). -/
@[ext]
structure VADState where
  sampleRate : Nat
  frameSize : Nat
  energyThreshold : ℚ
  speechStartDelay : Nat
  speechEndDelay : Nat
  maxChunkDuration : Nat
  minChunkDuration : Nat
  silenceTimeout : Nat
  isSpeaking : Bool
  speechStartTime : Option Nat
  speechEndTime : Option Nat
  lastSpeechTime : Option Nat
  audioBuffer : List ℚ
  frameBuffer : List ℚ
  noiseFloor : ℚ
  adaptiveThreshold : ℚ
  speechStartTimer : TimerHandle
  speechEndTimer : TimerHandle
  silenceTimer : TimerHandle
deriving Repr, DecidableEq

/-- The constructor (lines 4-31): `frameSize = Math.floor(sampleRate * 0.03)`
(exact at the configured rate 16000), hard-coded delays and durations,
noise floor seeded at `0.001`, adaptive threshold seeded at the configured
`vadThreshold`, all timers null. -/
def VADState.init (sampleRate : Nat) (vadThreshold : ℚ) (silenceTimeout : Nat) : VADState where
  sampleRate := sampleRate
  frameSize := sampleRate * 3 / 100
  energyThreshold := vadThreshold
  speechStartDelay := 300
  speechEndDelay := 1000
  maxChunkDuration := 3000
  minChunkDuration := 1000
  silenceTimeout := silenceTimeout
  isSpeaking := false
  speechStartTime := none
  speechEndTime := none
  lastSpeechTime := none
  audioBuffer := []
  frameBuffer := []
  noiseFloor := 1/1000
  adaptiveThreshold := vadThreshold
  speechStartTimer := .unset
  speechEndTimer := .unset
  silenceTimer := .unset

/-- `detectSpeech(energy)` (lines 88-96): speech iff the energy exceeds
`Math.max(adaptiveThreshold, noiseFloor * 3)`. -/
def detectSpeech (energy : ℚ) (s : VADState) : Bool :=
  energy > max s.adaptiveThreshold (s.noiseFloor * 3)

/-- `updateNoiseFloor(energy, isSpeech)` (lines 98-107): on a non-speech
frame, exponential moving average with `alpha = 0.01` and
`adaptiveThreshold = noiseFloor * 5`; on a speech frame, no mutation. -/
def updateNoiseFloor (energy : ℚ) (isSpeech : Bool) (s : VADState) : VADState :=
  if isSpeech then s
  else
    let alpha : ℚ := 1/100
    let nf := alpha * energy + (1 - alpha) * s.noiseFloor
    { s with noiseFloor := nf, adaptiveThreshold := nf * 5 }

/-- `handleSpeechStart()` (lines 109-136): clear a pending end timer,
return early if already speaking, else schedule the onset timer
(`speechStartDelay` ms) if none is set. -/
def handleSpeechStart (now : Nat) (s : VADState) : VADState :=
  let s := if s.speechEndTimer.isSet then { s with speechEndTimer := .unset } else s
  if s.isSpeaking then s
  else if s.speechStartTimer.isSet then s
  else { s with speechStartTimer := .pending (now + s.speechStartDelay) }

/-- `handleSpeechEnd()` (lines 138-151): clear a pending start timer, then
schedule the offset timer (`speechEndDelay` ms) if speaking and none is
set. -/
def handleSpeechEnd (now : Nat) (s : VADState) : VADState :=
  let s := if s.speechStartTimer.isSet then { s with speechStartTimer := .unset } else s
  if s.isSpeaking && !s.speechEndTimer.isSet then
    { s with speechEndTimer := .pending (now + s.speechEndDelay) }
  else s

/-- `endSpeech(reason)` (lines 153-179): if speaking, leave the speaking
state, record the end time, emit `speechEnd` with the buffered samples,
duration, start timestamp and reason when the duration reaches
`minChunkDuration`, and reset the buffer and start timestamp. -/
def endSpeech (reason : EndReason) (now : Nat) (s : VADState) : VADState × List Event :=
  if !s.isSpeaking then (s, [])
  else
    let duration : Int := (now : Int) - jsNum s.speechStartTime
    let evs :=
      if duration ≥ (s.minChunkDuration : Int) then
        [Event.speechEnd s.audioBuffer duration s.speechStartTime reason]
      else []
    ({ s with isSpeaking := false, speechEndTime := some now,
              audioBuffer := [], speechStartTime := none }, evs)

/-- `forceEndSpeech()` (lines 181-188): finalize with reason
`max_duration`, then immediately reopen a new active segment and emit
`speechStart` with reason `continued`. -/
def forceEndSpeech (now : Nat) (s : VADState) : VADState × List Event :=
  let r := endSpeech .max_duration now s
  ({ r.1 with isSpeaking := true, speechStartTime := some now },
   r.2 ++ [Event.speechStart true])

/-- `handleSilenceTimeout(isSpeech)` (lines 190-208): on a speech frame,
record the time and clear the silence timer; on a non-speech frame with a
truthy `lastSpeechTime`, schedule the silence timer (`silenceTimeout` ms)
if none is set. -/
def handleSilenceTimeout (now : Nat) (isSpeech : Bool) (s : VADState) : VADState :=
  if isSpeech then
    let s := { s with lastSpeechTime := some now }
    if s.silenceTimer.isSet then { s with silenceTimer := .unset } else s
  else if jsTruthyNat s.lastSpeechTime then
    if s.silenceTimer.isSet then s
    else { s with silenceTimer := .pending (now + s.silenceTimeout) }
  else s

/-- The speech-state transition chain of `processFrame` (lines 54-65):
onset handling, clearing a pending end timer while speech continues, or
offset handling. -/
def transitionStep (now : Nat) (isSpeech : Bool) (s : VADState) : VADState :=
  if isSpeech && !s.isSpeaking then handleSpeechStart now s
  else if isSpeech && s.isSpeaking then
    (if s.speechEndTimer.isSet then { s with speechEndTimer := .unset } else s)
  else if !isSpeech && s.isSpeaking then handleSpeechEnd now s
  else s

/-- The maximum-chunk-duration check of `processFrame` (lines 67-73):
when speaking with a truthy `speechStartTime` and the elapsed duration
has reached `maxChunkDuration`, force-finalize. -/
def maxDurationStep (now : Nat) (s : VADState) : VADState × List Event :=
  if s.isSpeaking && jsTruthyNat s.speechStartTime then
    if (now : Int) - jsNum s.speechStartTime ≥ (s.maxChunkDuration : Int) then
      forceEndSpeech now s
    else (s, [])
  else (s, [])

/-- `processFrame(frame)` (lines 44-77), with the frame's RMS energy
(`calculateEnergy`, line 45) passed as a parameter: classify, update the
noise floor, append the frame to the segment buffer, run the transition
logic, force-finalize when the segment has reached `maxChunkDuration`,
and handle the silence alarm. -/
def processFrame (now : Nat) (energy : ℚ) (frame : List ℚ) (s : VADState) :
    VADState × List Event :=
  let isSpeech := detectSpeech energy s
  let s := updateNoiseFloor energy isSpeech s
  let s := { s with audioBuffer := s.audioBuffer ++ frame }
  let s := transitionStep now isSpeech s
  let r := maxDurationStep now s
  (handleSilenceTimeout now isSpeech r.1, r.2)

/-- Callback of the onset timer (lines 123-134), run at its deadline:
enter the speaking state, record start and last-speech times, trim the
segment buffer to the trailing 300 ms pre-roll
(`Math.max(0, length - floor(sampleRate * 0.3))`, which is natural
subtraction), and emit `speechStart`.  The handle is not nulled by the
callback, so it becomes `fired`. -/
def fireStart (d : Nat) (s : VADState) : VADState × List Event :=
  let preSpeechSamples := s.sampleRate * 3 / 10
  let startIndex := s.audioBuffer.length - preSpeechSamples
  ({ s with isSpeaking := true, speechStartTime := some d, lastSpeechTime := some d,
            audioBuffer := s.audioBuffer.drop startIndex,
            speechStartTimer := .fired },
   [Event.speechStart false])

/-- Callback of the offset timer (lines 147-149), run at its deadline:
`endSpeech()` with the default reason `silence`.  The handle is not nulled
by the callback, so it becomes `fired`. -/
def fireEnd (d : Nat) (s : VADState) : VADState × List Event :=
  let r := endSpeech .silence d s
  ({ r.1 with speechEndTimer := .fired }, r.2)

/-- Callback of the silence timer (lines 202-205), run at its deadline:
emit `silenceTimeout` and null the handle. -/
def fireSilence (_d : Nat) (s : VADState) : VADState × List Event :=
  ({ s with silenceTimer := .unset }, [Event.silenceTimeout])

/-- `reset()` (lines 210-232): null all three timers, leave the speaking
state, clear every timestamp and both buffers.  The adaptive-threshold
state (`noiseFloor`, `adaptiveThreshold`) is not touched. -/
def reset (s : VADState) : VADState :=
  { s with speechStartTimer := .unset, speechEndTimer := .unset, silenceTimer := .unset,
           isSpeaking := false, speechStartTime := none, speechEndTime := none,
           lastSpeechTime := none, audioBuffer := [], frameBuffer := [] }

/-- Runtime reconfiguration argument: each field is `some v` when the
caller's object supplies the property with value `v` and `none` when it is
absent (`undefined`). -/
structure UpdateCfg where
  vadThreshold : Option ℚ := none
  silenceTimeout : Option Nat := none

/-- `updateConfig(config)` (lines 234-238): `config.vadThreshold ||
this.energyThreshold` keeps the old value when the supplied one is absent
or falsy (`0`); likewise for `silenceTimeout`; then the adaptive threshold
is overwritten with the (possibly unchanged) energy threshold. -/
def updateConfig (c : UpdateCfg) (s : VADState) : VADState :=
  let et := match c.vadThreshold with
    | some v => if v = 0 then s.energyThreshold else v
    | none => s.energyThreshold
  let st := match c.silenceTimeout with
    | some v => if v = 0 then s.silenceTimeout else v
    | none => s.silenceTimeout
  { s with energyThreshold := et, silenceTimeout := st, adaptiveThreshold := et }

/-- Which of the three timer fields a due deadline belongs to. -/
inductive TimerKind where
  | onset
  | offset
  | alarm
deriving Repr, DecidableEq

/-- Deadline of a pending timer that is due at time `now`, if any. -/
def dueAt (now : Nat) : TimerHandle → Option Nat
  | .pending d => if d ≤ now then some d else none
  | _ => none

/-- Run the callback of the due pending timer with the earliest deadline,
if any (the JavaScript event loop runs expired timeout callbacks in
deadline order before the next I/O callback). -/
def fireOne (now : Nat) (s : VADState) : Option (VADState × List Event) :=
  let cands : List (Nat × TimerKind) :=
    (match dueAt now s.speechStartTimer with | some d => [(d, .onset)] | none => []) ++
    (match dueAt now s.speechEndTimer with | some d => [(d, .offset)] | none => []) ++
    (match dueAt now s.silenceTimer with | some d => [(d, .alarm)] | none => [])
  match cands with
  | [] => none
  | c :: cs =>
    let best := cs.foldl (fun b x => if x.1 < b.1 then x else b) c
    some (match best.2 with
      | .onset => fireStart best.1 s
      | .offset => fireEnd best.1 s
      | .alarm => fireSilence best.1 s)

/-- Run every due timer callback, earliest first.  No callback of this
class schedules a new timer, so at most three can be due; three rounds are
exhaustive. -/
def fireDue (now : Nat) (s : VADState) : VADState × List Event :=
  match fireOne now s with
  | none => (s, [])
  | some (s1, e1) =>
    match fireOne now s1 with
    | none => (s1, e1)
    | some (s2, e2) =>
      match fireOne now s2 with
      | none => (s2, e1 ++ e2)
      | some (s3, e3) => (s3, e1 ++ e2 ++ e3)

/-- One frame handed to `processFrame` at absolute time `t` (ms), carrying
its RMS energy. -/
structure TimedFrame where
  t : Nat
  energy : ℚ
  frame : List ℚ

/-- One event-loop step: run due timer callbacks, then process the frame.
Also reports the frame's speech/non-speech classification (the same
`detectSpeech` call `processFrame` makes). -/
def stepVAD (s : VADState) (i : TimedFrame) : VADState × List Event × Bool :=
  let f := fireDue i.t s
  let d := detectSpeech i.energy f.1
  let p := processFrame i.t i.energy i.frame f.1
  (p.1, f.2 ++ p.2, d)

/-- Run the detector over a timestamped frame sequence, collecting the
emitted events in order and the per-frame classifications. -/
def runVAD (s : VADState) : List TimedFrame → VADState × List Event × List Bool
  | [] => (s, [], [])
  | i :: is =>
    let p := stepVAD s i
    let r := runVAD p.1 is
    (r.1, p.2.1 ++ r.2.1, p.2.2 :: r.2.2)

/-- The `while` loop of `processAudio` (lines 38-41): as long as the
buffer holds at least `fs` samples, splice off a frame of `fs` samples
and yield it.  (For `fs = 0` the source loop would never terminate; the
embedding returns immediately, and every theorem assumes `0 < fs`.) -/
def splitFrames (fs : Nat) (buf : List α) : List (List α) × List α :=
  if _h : 0 < fs ∧ fs ≤ buf.length then
    let r := splitFrames fs (buf.drop fs)
    (buf.take fs :: r.1, r.2)
  else ([], buf)
termination_by buf.length
decreasing_by simp only [List.length_drop]; omega

/-- `processAudio(audioData)` (lines 33-42): append the incoming block to
the frame buffer, then yield every complete frame in order; returns the
yielded frames and the new frame buffer (the remainder).  `processFrame`
never touches `frameBuffer`, so the splitting is independent of the rest
of the detector state. -/
def processAudioCore (fs : Nat) (buf block : List α) : List (List α) × List α :=
  splitFrames fs (buf ++ block)

/-- A sequence of `processAudio` calls starting from frame buffer `buf`:
all yielded frames in order, and the final remainder. -/
def feedAll (fs : Nat) (buf : List α) : List (List α) → List (List α) × List α
  | [] => ([], buf)
  | b :: bs =>
    let r := processAudioCore fs buf b
    let r2 := feedAll fs r.2 bs
    (r.1 ++ r2.1, r2.2)

/-- A JavaScript IEEE-754 number as far as the claims need it: a finite
value (modelled as a rational, abstracting rounding), `NaN`, or a signed
infinity. -/
inductive JSFloat where
  | num (q : ℚ)
  | nan
  | inf
  | ninf
deriving Repr, DecidableEq

/-- JavaScript addition on `JSFloat`: `NaN` is absorbing, opposite
infinities give `NaN`. -/
def jsAdd : JSFloat → JSFloat → JSFloat
  | .nan, _ => .nan
  | _, .nan => .nan
  | .inf, .ninf => .nan
  | .ninf, .inf => .nan
  | .inf, _ => .inf
  | _, .inf => .inf
  | .ninf, _ => .ninf
  | _, .ninf => .ninf
  | .num a, .num b => .num (a + b)

/-- JavaScript multiplication on `JSFloat`: `NaN` is absorbing,
`±Infinity` times zero gives `NaN`, otherwise signs multiply. -/
def jsMul : JSFloat → JSFloat → JSFloat
  | .nan, _ => .nan
  | _, .nan => .nan
  | .num a, .num b => .num (a * b)
  | .inf, .inf => .inf
  | .inf, .ninf => .ninf
  | .ninf, .inf => .ninf
  | .ninf, .ninf => .inf
  | .inf, .num b => if b = 0 then .nan else if 0 < b then .inf else .ninf
  | .num a, .inf => if a = 0 then .nan else if 0 < a then .inf else .ninf
  | .ninf, .num b => if b = 0 then .nan else if 0 < b then .ninf else .inf
  | .num a, .ninf => if a = 0 then .nan else if 0 < a then .ninf else .inf

/-- The accumulation loop of `calculateEnergy` (lines 81-84), on
JavaScript numbers: `sum += frame[i] * frame[i]`. -/
def calculateEnergySum (frame : List JSFloat) : JSFloat :=
  frame.foldl (fun sum x => jsAdd sum (jsMul x x)) (.num 0)

/-- The record returned by `getStatus()` (lines 240-249). -/
structure VADStatus where
  isSpeaking : Bool
  bufferLength : Nat
  bufferDuration : ℚ
  noiseFloor : ℚ
  adaptiveThreshold : ℚ
  frameBufferLength : Nat
deriving Repr, DecidableEq

/-- `getStatus()` (lines 240-249). -/
def getStatus (s : VADState) : VADStatus where
  isSpeaking := s.isSpeaking
  bufferLength := s.audioBuffer.length
  bufferDuration := (s.audioBuffer.length : ℚ) / (s.sampleRate : ℚ)
  noiseFloor := s.noiseFloor
  adaptiveThreshold := s.adaptiveThreshold
  frameBufferLength := s.frameBuffer.length

/-- The counting loop of `calculateZeroCrossingRate`
(`audio-analysis.js`, lines 29-35): for each `i` from `1`, increment when
`(frame[i] >= 0) !== (frame[i-1] >= 0)`. -/
def crossings : List ℚ → Nat
  | a :: b :: rest =>
    (if (decide (0 ≤ a)) ≠ (decide (0 ≤ b)) then 1 else 0) + crossings (b :: rest)
  | _ => 0

/-- `calculateZeroCrossingRate(frame)` (lines 28-38): the crossing count
divided by the frame length. -/
def calculateZeroCrossingRate (frame : List ℚ) : ℚ :=
  (crossings frame : ℚ) / (frame.length : ℚ)

/-- Modelled from the spec's words ("fraction of adjacent sample pairs
whose signs differ"): the crossing count divided by the number of adjacent
pairs, `length - 1`.  Spec-side definition, to be compared with the
source's `calculateZeroCrossingRate`. -/
def pairSignDiffFraction (frame : List ℚ) : ℚ :=
  (crossings frame : ℚ) / ((frame.length - 1 : Nat) : ℚ)

/-- The length-`n` frame that perfectly alternates between `+A` and `-A`,
starting at `+A`. -/
def altFrame (A : ℚ) : Nat → List ℚ
  | 0 => []
  | n + 1 => A :: altFrame (-A) n

/-- The accumulation loop of `calculateSpectralCentroid` (lines 11-18):
`weightedSum += |frame[i]| * i` and `magnitudeSum += |frame[i]|`, with `i`
starting at `0`. -/
def centroidLoop (i : Nat) (w m : ℚ) : List ℚ → ℚ × ℚ
  | [] => (w, m)
  | x :: xs => centroidLoop (i + 1) (w + |x| * (i : ℚ)) (m + |x|) xs

/-- `calculateSpectralCentroid(frame, sampleRate)` (lines 8-21): the
guarded amplitude-weighted index centroid; when the magnitude sum is not
positive the conditional returns `0`. -/
def calculateSpectralCentroid (frame : List ℚ) (sampleRate : ℚ) : ℚ :=
  let r := centroidLoop 0 0 0 frame
  if r.2 > 0 then (r.1 / r.2) * (sampleRate / 2) / (frame.length : ℚ) else 0

/-!
Concrete data for counterexamples and witnesses.  All amplitudes are
constant within a frame, so the frame's RMS energy is exactly the
absolute amplitude.
-/

/-- A 30 ms frame (480 samples at 16 kHz) of digital silence; RMS 0. -/
def z480 : List ℚ := List.replicate 480 0

/-- A 30 ms frame of constant amplitude 1; RMS 1. -/
def ones480 : List ℚ := List.replicate 480 1

/-- A 30 ms frame of constant amplitude 0.007; RMS 7/1000. -/
def f7 : List ℚ := List.replicate 480 (7/1000)

/-- A detector constructed with `sampleRate 16000`, `vadThreshold 0.01`
and `silenceTimeout 5000`. -/
def cfgA : VADState := VADState.init 16000 (1/100) 5000

/-- A detector constructed with `sampleRate 16000`, `vadThreshold 0.01`
and `silenceTimeout 10000` (the test suite's configuration). -/
def cfgB : VADState := VADState.init 16000 (1/100) 10000

/-- A run with one speech frame followed by non-speech frames, paced so
that the silence timer (5000 ms) expires twice with no intervening speech
frame. -/
def c1trace : List TimedFrame :=
  [⟨1000, 1, ones480⟩, ⟨1030, 0, z480⟩, ⟨6100, 0, z480⟩, ⟨11200, 0, z480⟩]

/-- The detector `cfgB` after one silent frame: the noise floor has
adapted from 0.001 to 0.00099 and the adaptive threshold to 0.00495. -/
def sAdapt : VADState := (runVAD cfgB [⟨1000, 0, z480⟩]).1

/-- A detector in confirmed speech since t = 1000 ms with two buffered
samples. -/
def sSpeak : VADState :=
  { VADState.init 16000 (1/100) 10000 with
      isSpeaking := true, speechStartTime := some 1000, audioBuffer := [1, 1] }

/-- A 480-sample block whose first sample is `NaN`. -/
def nanBlock : List JSFloat := .nan :: List.replicate 479 (.num 0)

attribute [local semireducible] Rat.mul Rat.add Rat.sub Rat.inv

set_option maxRecDepth 100000

/-- Helper: `jsAdd NaN b = NaN` for every JavaScript number `b`. -/
theorem jsAdd_nan_left (b : JSFloat) : jsAdd .nan b = .nan := by
  cases b <;> rfl

/-- Helper: `jsAdd a NaN = NaN` for every JavaScript number `a`. -/
theorem jsAdd_nan_right (a : JSFloat) : jsAdd a .nan = .nan := by
  cases a <;> rfl

/-- Helper: once the energy accumulator of `calculateEnergy` is `NaN` it
stays `NaN` for the rest of the loop. -/
theorem energySum_from_nan (l : List JSFloat) :
    l.foldl (fun sum x => jsAdd sum (jsMul x x)) .nan = .nan := by
  induction l with
  | nil => rfl
  | cons x xs ih =>
    rw [List.foldl_cons, jsAdd_nan_left]
    exact ih

/-- Helper: the energy accumulation loop maps any frame containing `NaN`
to `NaN`, from any starting accumulator. -/
theorem energySum_go_mem_nan (l : List JSFloat) (acc : JSFloat) (h : JSFloat.nan ∈ l) :
    l.foldl (fun sum x => jsAdd sum (jsMul x x)) acc = .nan := by
  induction l generalizing acc with
  | nil => simp at h
  | cons x xs ih =>
    rcases List.mem_cons.mp h with h1 | h2
    · subst h1
      rw [List.foldl_cons, show jsMul JSFloat.nan JSFloat.nan = JSFloat.nan from rfl,
        jsAdd_nan_right]
      exact energySum_from_nan xs
    · rw [List.foldl_cons]
      exact ih _ h2

/-- C6: `updateNoiseFloor` leaves `noiseFloor` and `adaptiveThreshold`
unchanged on a frame decided speech; on a non-speech frame it sets
`noiseFloor` to `0.01 * energy + 0.99 * noiseFloor` and
`adaptiveThreshold` to five times the new noise floor; consequently the
noise floor is unchanged (in particular never increases) across any run
of speech frames. -/
theorem c6_noise_floor_update (s : VADState) (energy : ℚ) (es : List ℚ) :
    (updateNoiseFloor energy true s).noiseFloor = s.noiseFloor ∧
    (updateNoiseFloor energy true s).adaptiveThreshold = s.adaptiveThreshold ∧
    (updateNoiseFloor energy false s).noiseFloor
      = (1/100) * energy + (99/100) * s.noiseFloor ∧
    (updateNoiseFloor energy false s).adaptiveThreshold
      = 5 * ((1/100) * energy + (99/100) * s.noiseFloor) ∧
    (es.foldl (fun t e => updateNoiseFloor e true t) s).noiseFloor = s.noiseFloor := by
  refine ⟨rfl, rfl, by norm_num [updateNoiseFloor], by norm_num [updateNoiseFloor]; ring, ?_⟩
  induction es generalizing s with
  | nil => rfl
  | cons e es ih => simpa only [List.foldl_cons] using ih s

/-- C10: `calculateSpectralCentroid` is total, and whenever the loop's
magnitude sum is zero the guarded conditional returns `0` instead of
dividing by zero. -/
theorem c10_centroid_zero_guard (frame : List ℚ) (sampleRate : ℚ)
    (h : (centroidLoop 0 0 0 frame).2 = 0) :
    calculateSpectralCentroid frame sampleRate = 0 := by
  unfold calculateSpectralCentroid
  simp [h]

/-- Witness for C10 at the all-zero frame `[0, 0, 0]`. -/
theorem c10_centroid_zero_guard_witness :
    (centroidLoop 0 0 0 [0, 0, 0]).2 = 0 ∧ calculateSpectralCentroid [0, 0, 0] 16000 = 0 :=
  ⟨by decide, c10_centroid_zero_guard [0, 0, 0] 16000 (by decide)⟩

/-- C4: when the offset timer fires while the detector is speaking, a
`speechEnd` event carrying the buffered samples, duration, start
timestamp and reason `silence` is emitted exactly when the elapsed
duration reaches `minChunkDuration` (1000 ms); in either case the segment
buffer is cleared and the detector leaves the speaking state. -/
theorem c4_offset_timer_finalization (s : VADState) (d : Nat)
    (hs : s.isSpeaking = true) (hmin : s.minChunkDuration = 1000) :
    (fireEnd d s).2 =
      (if (d : Int) - jsNum s.speechStartTime ≥ (1000 : Int) then
        [Event.speechEnd s.audioBuffer ((d : Int) - jsNum s.speechStartTime)
          s.speechStartTime .silence]
      else []) ∧
    (fireEnd d s).1.audioBuffer = [] ∧
    (fireEnd d s).1.isSpeaking = false := by
  simp [fireEnd, endSpeech, hs, hmin]

/-- Witness for C4: the offset timer fires at t = 2500 ms on `sSpeak`
(speaking since t = 1000 ms), duration 1500 ms ≥ 1000 ms. -/
theorem c4_offset_timer_finalization_witness :
    sSpeak.isSpeaking = true ∧ sSpeak.minChunkDuration = 1000 ∧
    ((fireEnd 2500 sSpeak).2 =
      (if (2500 : Int) - jsNum sSpeak.speechStartTime ≥ (1000 : Int) then
        [Event.speechEnd sSpeak.audioBuffer ((2500 : Int) - jsNum sSpeak.speechStartTime)
          sSpeak.speechStartTime .silence]
      else []) ∧
    (fireEnd 2500 sSpeak).1.audioBuffer = [] ∧
    (fireEnd 2500 sSpeak).1.isSpeaking = false) :=
  ⟨rfl, rfl, c4_offset_timer_finalization sSpeak 2500 rfl rfl⟩

/-- C7, counterexample: a configuration that supplies the value `0` for
`vadThreshold` does not replace the stored `energyThreshold` (JavaScript
`||` discards the falsy supplied value), contradicting the claim that
supplied values are always installed. -/
theorem c7_counterexample :
    (updateConfig { vadThreshold := some 0, silenceTimeout := some 5000 } cfgB).energyThreshold
      = 1/100 ∧ ((1 : ℚ)/100 ≠ 0) := by decide

/-- C7 as amended: for supplied truthy (nonzero) values, `updateConfig`
installs both settings, overwrites `adaptiveThreshold` with the new
`energyThreshold` seed, and leaves every other field of the state
unchanged. -/
theorem c7_amended_truthy_update (s : VADState) (v : ℚ) (t : Nat)
    (hv : v ≠ 0) (ht : t ≠ 0) :
    updateConfig { vadThreshold := some v, silenceTimeout := some t } s =
      { s with energyThreshold := v, silenceTimeout := t, adaptiveThreshold := v } := by
  simp [updateConfig, hv, ht]

/-- Witness for C7 as amended, at `vadThreshold 0.02`, `silenceTimeout
5000`. -/
theorem c7_amended_truthy_update_witness :
    ((2 : ℚ)/100 ≠ 0) ∧ (5000 : Nat) ≠ 0 ∧
    updateConfig { vadThreshold := some (2/100), silenceTimeout := some 5000 } cfgB =
      { cfgB with energyThreshold := 2/100, silenceTimeout := 5000,
                  adaptiveThreshold := 2/100 } :=
  ⟨by norm_num, by decide, c7_amended_truthy_update cfgB (2/100) 5000 (by norm_num) (by decide)⟩

/-- C8: the feed boundary performs no validation: the energy loop maps
any frame containing `NaN` to `NaN`, and `processAudio` forwards a block
whose first sample is `NaN` to the classification path as an ordinary
complete frame instead of rejecting it. -/
theorem c8_no_validation_nan_propagates :
    (∀ frame : List JSFloat, JSFloat.nan ∈ frame → calculateEnergySum frame = .nan) ∧
    (processAudioCore 480 ([] : List JSFloat) nanBlock).1 = [nanBlock] ∧
    (processAudioCore 480 ([] : List JSFloat) nanBlock).2 = [] := by
  have hlen : nanBlock.length = 480 := by simp [nanBlock]
  have hsplit : splitFrames 480 nanBlock = ([nanBlock], []) := by
    rw [splitFrames]
    simp [hlen, List.take_of_length_le, List.drop_eq_nil_of_le, hlen.le]
    rw [splitFrames]
    simp
  refine ⟨fun frame h => energySum_go_mem_nan frame _ h, ?_, ?_⟩ <;>
    simp [processAudioCore, hsplit]

/-- Witness for C8 at the concrete 480-sample block with a leading
`NaN`. -/
theorem c8_no_validation_nan_propagates_witness :
    JSFloat.nan ∈ nanBlock ∧ calculateEnergySum nanBlock = .nan :=
  ⟨by simp [nanBlock], c8_no_validation_nan_propagates.1 nanBlock (by simp [nanBlock])⟩

/-- Helper: the alternating frame has length `n`. -/
theorem altFrame_length (A : ℚ) (n : Nat) : (altFrame A n).length = n := by
  induction n generalizing A with
  | zero => rfl
  | succ m ih => simp [altFrame, ih]

/-- Helper: the crossing count of the loop on `a :: b :: r`. -/
theorem crossings_cons_cons (a b : ℚ) (r : List ℚ) :
    crossings (a :: b :: r)
      = (if (decide (0 ≤ a)) ≠ (decide (0 ≤ b)) then 1 else 0) + crossings (b :: r) := rfl

/-- Helper: the crossing count never exceeds the frame length. -/
theorem crossings_le_length (l : List ℚ) : crossings l ≤ l.length := by
  induction l with
  | nil => simp [crossings]
  | cons a t ih =>
    cases t with
    | nil => simp [crossings]
    | cons b r =>
      rw [crossings_cons_cons]
      split <;> simp only [List.length_cons] at * <;> omega

/-- Helper: every adjacent pair of the alternating frame changes sign, so
the crossing count is `n - 1`. -/
theorem crossings_altFrame (n : Nat) : ∀ (A : ℚ), A ≠ 0 → crossings (altFrame A n) = n - 1 := by
  induction n using Nat.strong_induction_on with
  | _ n ih =>
    intro A hA
    match n with
    | 0 => simp [altFrame, crossings]
    | 1 => simp [altFrame, crossings]
    | Nat.succ (Nat.succ m) =>
      have h1 : altFrame A (m + 2) = A :: -A :: altFrame (- -A) m := rfl
      have hsign : (decide (0 ≤ A)) ≠ (decide (0 ≤ -A)) := by
        rcases hA.lt_or_lt with h | h
        · simp [not_le.mpr h, neg_nonneg.mpr h.le]
        · simp [h.le, not_le.mpr (neg_neg_of_pos h)]
      have h2 : (-A :: altFrame (- -A) m) = altFrame (-A) (m + 1) := rfl
      rw [h1, crossings_cons_cons, if_pos hsign, h2,
        ih (m + 1) (by omega) (-A) (neg_ne_zero.mpr hA)]
      omega

/-- C9, counterexample: on the frame `[1, -1]` the source's
zero-crossing rate is `1/2` (it divides by the frame length, 2), while
the fraction of adjacent sample pairs whose signs differ is `1/1 = 1`,
so the rate is not that fraction. -/
theorem c9_counterexample :
    calculateZeroCrossingRate [1, -1] = 1/2 ∧ pairSignDiffFraction [1, -1] = 1 ∧
      ((1 : ℚ)/2 ≠ 1) := by decide

/-- C9 as amended: the zero-crossing rate divides the count of adjacent
sign-differing pairs by the frame length `n` (not by the pair count
`n - 1`); the perfectly alternating frame of length `n ≥ 1` with
amplitude `A > 0` therefore scores exactly `(n - 1)/n`, and on every
nonempty frame the rate lies in `[0, 1]`. -/
theorem c9_amended_zcr (A : ℚ) (n : Nat) (frame : List ℚ)
    (hA : 0 < A) (hn : 1 ≤ n) (hf : 1 ≤ frame.length) :
    calculateZeroCrossingRate (altFrame A n) = ((n : ℚ) - 1) / (n : ℚ) ∧
    0 ≤ calculateZeroCrossingRate frame ∧
    calculateZeroCrossingRate frame ≤ 1 := by
  refine ⟨?_, ?_, ?_⟩
  · rw [calculateZeroCrossingRate, crossings_altFrame n A hA.ne', altFrame_length]
    have : ((n - 1 : Nat) : ℚ) = (n : ℚ) - 1 := by push_cast [hn]; ring
    rw [this]
  · exact div_nonneg (by positivity) (by positivity)
  · rw [calculateZeroCrossingRate]
    have hpos : (0 : ℚ) < (frame.length : ℚ) := by exact_mod_cast hf
    exact (div_le_one hpos).mpr (by exact_mod_cast crossings_le_length frame)

/-- Witness for C9 as amended, at `A = 1`, `n = 2` and the frame
`[1, -1]`: the rate is `1/2 = (2-1)/2` and lies in `[0, 1]`. -/
theorem c9_amended_zcr_witness :
    (0 : ℚ) < 1 ∧ (1 : Nat) ≤ 2 ∧ 1 ≤ ([1, -1] : List ℚ).length ∧
    (calculateZeroCrossingRate (altFrame 1 2) = ((2 : ℚ) - 1) / (2 : ℚ) ∧
     0 ≤ calculateZeroCrossingRate [1, -1] ∧
     calculateZeroCrossingRate [1, -1] ≤ 1) :=
  ⟨by norm_num, by decide, by decide,
    c9_amended_zcr 1 2 [1, -1] (by norm_num) (by decide) (by decide)⟩

/-- Helper: the frames split off by the `while` loop, concatenated, plus
the loop's remainder, reproduce the buffer. -/
theorem splitFrames_join (fs : Nat) (h : 0 < fs) :
    ∀ (l : List α), (splitFrames fs l).1.flatten ++ (splitFrames fs l).2 = l := by
  have main : ∀ (k : Nat) (l : List α), l.length ≤ k →
      (splitFrames fs l).1.flatten ++ (splitFrames fs l).2 = l := by
    intro k
    induction k with
    | zero =>
      intro l hl
      have hnil : l = [] := List.eq_nil_of_length_eq_zero (Nat.le_zero.mp hl)
      subst hnil
      rw [splitFrames, dif_neg (by simp only [List.length_nil]; omega)]
      simp
    | succ k ih =>
      intro l hl
      rw [splitFrames]
      by_cases hc : fs ≤ l.length
      · rw [dif_pos ⟨h, hc⟩]
        simp only [List.flatten_cons, List.append_assoc]
        rw [ih (l.drop fs) (by simp only [List.length_drop]; omega)]
        exact List.take_append_drop fs l
      · rw [dif_neg (by tauto)]
        simp
  intro l
  exact main l.length l le_rfl

/-- Helper: the loop's remainder is strictly shorter than one frame. -/
theorem splitFrames_rem_lt (fs : Nat) (h : 0 < fs) :
    ∀ (l : List α), (splitFrames fs l).2.length < fs := by
  have main : ∀ (k : Nat) (l : List α), l.length ≤ k →
      (splitFrames fs l).2.length < fs := by
    intro k
    induction k with
    | zero =>
      intro l hl
      have hnil : l = [] := List.eq_nil_of_length_eq_zero (Nat.le_zero.mp hl)
      subst hnil
      rw [splitFrames, dif_neg (by simp only [List.length_nil]; omega)]
      show ([] : List α).length < fs
      simp only [List.length_nil]
      omega
    | succ k ih =>
      intro l hl
      rw [splitFrames]
      by_cases hc : fs ≤ l.length
      · rw [dif_pos ⟨h, hc⟩]
        exact ih (l.drop fs) (by simp only [List.length_drop]; omega)
      · rw [dif_neg (by tauto)]
        show l.length < fs
        omega
  intro l
  exact main l.length l le_rfl

/-- Helper: losslessness across a whole sequence of `processAudio`
calls. -/
theorem feedAll_join (fs : Nat) (h : 0 < fs) :
    ∀ (blocks : List (List α)) (buf : List α),
      (feedAll fs buf blocks).1.flatten ++ (feedAll fs buf blocks).2
        = buf ++ blocks.flatten := by
  intro blocks
  induction blocks with
  | nil => intro buf; simp [feedAll]
  | cons b bs ih =>
    intro buf
    simp only [feedAll, processAudioCore, List.flatten_cons,
      List.flatten_append, List.append_assoc]
    rw [ih]
    rw [← List.append_assoc _ _ bs.flatten, splitFrames_join fs h (buf ++ b)]
    simp

/-- Helper: after every call the remainder stays shorter than one
frame. -/
theorem feedAll_rem_lt (fs : Nat) (h : 0 < fs) :
    ∀ (blocks : List (List α)) (buf : List α), buf.length < fs →
      (feedAll fs buf blocks).2.length < fs := by
  intro blocks
  induction blocks with
  | nil => intro buf hb; simpa [feedAll] using hb
  | cons b bs ih =>
    intro buf hb
    simp only [feedAll]
    exact ih _ (splitFrames_rem_lt fs h _)

/-- C5: the frame assembler is lossless: across any sequence of
`processAudio` calls, the concatenation of all frames yielded to the
classification path followed by the final remainder equals the
concatenation of the input blocks, and after every call the remainder is
strictly shorter than one frame. -/
theorem c5_frame_assembler_lossless (fs : Nat) (buf block : List ℚ)
    (blocks : List (List ℚ)) (h : 0 < fs) :
    (feedAll fs [] blocks).1.flatten ++ (feedAll fs [] blocks).2 = blocks.flatten ∧
    (feedAll fs ([] : List ℚ) blocks).2.length < fs ∧
    (processAudioCore fs buf block).1.flatten ++ (processAudioCore fs buf block).2
      = buf ++ block ∧
    (processAudioCore fs buf block).2.length < fs := by
  refine ⟨?_, ?_, ?_, ?_⟩
  · simpa using feedAll_join fs h blocks []
  · exact feedAll_rem_lt fs h blocks [] (by simpa using h)
  · exact splitFrames_join fs h (buf ++ block)
  · exact splitFrames_rem_lt fs h (buf ++ block)

/-- Witness for C5 at frame size 2, carry-over `[5]`, block `[6, 7]` and
the call sequence `[[1, 2, 3], [4]]`. -/
theorem c5_frame_assembler_lossless_witness :
    0 < 2 ∧
    ((feedAll 2 [] [[1, 2, 3], [4]]).1.flatten ++ (feedAll 2 [] [[1, 2, 3], [4]]).2
        = ([[1, 2, 3], [4]] : List (List ℚ)).flatten ∧
     (feedAll 2 ([] : List ℚ) [[1, 2, 3], [4]]).2.length < 2 ∧
     (processAudioCore 2 [5] [6, 7]).1.flatten ++ (processAudioCore 2 [5] [6, 7]).2
        = ([5] : List ℚ) ++ [6, 7] ∧
     (processAudioCore 2 ([5] : List ℚ) [6, 7]).2.length < 2) :=
  ⟨by decide, c5_frame_assembler_lossless 2 [5] [6, 7] [[1, 2, 3], [4]] (by decide)⟩

/-- Helper: `updateNoiseFloor` only writes `noiseFloor` and
`adaptiveThreshold`; every other field is preserved. -/
theorem updateNoiseFloor_proj (energy : ℚ) (b : Bool) (s : VADState) :
    (updateNoiseFloor energy b s).isSpeaking = s.isSpeaking ∧
    (updateNoiseFloor energy b s).speechStartTime = s.speechStartTime ∧
    (updateNoiseFloor energy b s).audioBuffer = s.audioBuffer ∧
    (updateNoiseFloor energy b s).lastSpeechTime = s.lastSpeechTime ∧
    (updateNoiseFloor energy b s).silenceTimer = s.silenceTimer ∧
    (updateNoiseFloor energy b s).maxChunkDuration = s.maxChunkDuration ∧
    (updateNoiseFloor energy b s).minChunkDuration = s.minChunkDuration ∧
    (updateNoiseFloor energy b s).silenceTimeout = s.silenceTimeout := by
  unfold updateNoiseFloor
  split <;> exact ⟨rfl, rfl, rfl, rfl, rfl, rfl, rfl, rfl⟩

/-- Helper: `handleSpeechStart` only writes the two speech timers. -/
theorem handleSpeechStart_proj (now : Nat) (s : VADState) :
    (handleSpeechStart now s).isSpeaking = s.isSpeaking ∧
    (handleSpeechStart now s).speechStartTime = s.speechStartTime ∧
    (handleSpeechStart now s).audioBuffer = s.audioBuffer ∧
    (handleSpeechStart now s).lastSpeechTime = s.lastSpeechTime ∧
    (handleSpeechStart now s).silenceTimer = s.silenceTimer ∧
    (handleSpeechStart now s).maxChunkDuration = s.maxChunkDuration ∧
    (handleSpeechStart now s).minChunkDuration = s.minChunkDuration ∧
    (handleSpeechStart now s).silenceTimeout = s.silenceTimeout := by
  unfold handleSpeechStart
  dsimp only
  split <;> split <;> first
    | exact ⟨rfl, rfl, rfl, rfl, rfl, rfl, rfl, rfl⟩
    | (split <;> exact ⟨rfl, rfl, rfl, rfl, rfl, rfl, rfl, rfl⟩)

/-- Helper: `handleSpeechEnd` only writes the two speech timers. -/
theorem handleSpeechEnd_proj (now : Nat) (s : VADState) :
    (handleSpeechEnd now s).isSpeaking = s.isSpeaking ∧
    (handleSpeechEnd now s).speechStartTime = s.speechStartTime ∧
    (handleSpeechEnd now s).audioBuffer = s.audioBuffer ∧
    (handleSpeechEnd now s).lastSpeechTime = s.lastSpeechTime ∧
    (handleSpeechEnd now s).silenceTimer = s.silenceTimer ∧
    (handleSpeechEnd now s).maxChunkDuration = s.maxChunkDuration ∧
    (handleSpeechEnd now s).minChunkDuration = s.minChunkDuration ∧
    (handleSpeechEnd now s).silenceTimeout = s.silenceTimeout := by
  unfold handleSpeechEnd
  dsimp only
  split <;> split <;> exact ⟨rfl, rfl, rfl, rfl, rfl, rfl, rfl, rfl⟩

/-- Helper: the whole transition chain only writes the two speech
timers. -/
theorem transitionStep_proj (now : Nat) (b : Bool) (s : VADState) :
    (transitionStep now b s).isSpeaking = s.isSpeaking ∧
    (transitionStep now b s).speechStartTime = s.speechStartTime ∧
    (transitionStep now b s).audioBuffer = s.audioBuffer ∧
    (transitionStep now b s).lastSpeechTime = s.lastSpeechTime ∧
    (transitionStep now b s).silenceTimer = s.silenceTimer ∧
    (transitionStep now b s).maxChunkDuration = s.maxChunkDuration ∧
    (transitionStep now b s).minChunkDuration = s.minChunkDuration ∧
    (transitionStep now b s).silenceTimeout = s.silenceTimeout := by
  unfold transitionStep
  split
  · exact handleSpeechStart_proj now s
  · split
    · split <;> exact ⟨rfl, rfl, rfl, rfl, rfl, rfl, rfl, rfl⟩
    · split
      · exact handleSpeechEnd_proj now s
      · exact ⟨rfl, rfl, rfl, rfl, rfl, rfl, rfl, rfl⟩

/-- Helper: the silence-alarm handler never touches the speaking state,
the start timestamp or the segment buffer. -/
theorem handleSilenceTimeout_proj (now : Nat) (b : Bool) (s : VADState) :
    (handleSilenceTimeout now b s).isSpeaking = s.isSpeaking ∧
    (handleSilenceTimeout now b s).speechStartTime = s.speechStartTime ∧
    (handleSilenceTimeout now b s).audioBuffer = s.audioBuffer := by
  unfold handleSilenceTimeout
  split
  · dsimp only
    split <;> exact ⟨rfl, rfl, rfl⟩
  · split
    · split <;> exact ⟨rfl, rfl, rfl⟩
    · exact ⟨rfl, rfl, rfl⟩

/-- Helper: on a frame classified speech, the silence-alarm handler
records the time and leaves the silence timer cleared. -/
theorem handleSilenceTimeout_speech (now : Nat) (s : VADState) :
    (handleSilenceTimeout now true s).lastSpeechTime = some now ∧
    (handleSilenceTimeout now true s).silenceTimer = .unset := by
  cases hts : s.silenceTimer <;>
    simp [handleSilenceTimeout, TimerHandle.isSet, hts]

/-- Helper: `forceEndSpeech` on a speaking state with a long-enough
segment emits `speechEnd` followed by the continuation `speechStart`, and
reopens an empty active segment. -/
theorem force_end_result (s : VADState) (now t0 : Nat) (buf : List ℚ)
    (h1 : s.isSpeaking = true) (h2 : s.speechStartTime = some t0)
    (h4 : s.minChunkDuration = 1000) (h5 : s.audioBuffer = buf)
    (hd : (now : Int) - (t0 : Int) ≥ ((1000 : Nat) : Int)) :
    (forceEndSpeech now s).2 =
      [Event.speechEnd buf ((now : Int) - (t0 : Int)) (some t0) .max_duration,
       Event.speechStart true] ∧
    (forceEndSpeech now s).1.isSpeaking = true ∧
    (forceEndSpeech now s).1.speechStartTime = some now ∧
    (forceEndSpeech now s).1.audioBuffer = [] := by
  unfold forceEndSpeech endSpeech
  rw [h1]
  dsimp only [Bool.not_true]
  rw [if_neg (by simp)]
  have hJ : jsNum s.speechStartTime = (t0 : Int) := by rw [h2]; rfl
  rw [hJ, h4, h2, h5]
  rw [if_pos hd]
  exact ⟨rfl, rfl, rfl, rfl⟩

/-- Helper: when speaking since a truthy `t0` and the elapsed time has
reached `maxChunkDuration`, the max-duration check force-finalizes. -/
theorem maxDurationStep_force (now t0 : Nat) (s : VADState)
    (h1 : s.isSpeaking = true) (h2 : s.speechStartTime = some t0) (ht0 : t0 ≠ 0)
    (h3 : s.maxChunkDuration = 3000)
    (hd : (now : Int) - (t0 : Int) ≥ ((3000 : Nat) : Int)) :
    maxDurationStep now s = forceEndSpeech now s := by
  unfold maxDurationStep
  have hT : jsTruthyNat s.speechStartTime = true := by
    rw [h2]; simpa [jsTruthyNat] using ht0
  have hJ : jsNum s.speechStartTime = (t0 : Int) := by rw [h2]; rfl
  simp only [h1, hT, Bool.and_self, if_true, hJ, h3]
  rw [if_pos hd]

/-- C3: whenever the detector is speaking with a (truthy) recorded start
time `t0` and the current frame arrives at least `maxChunkDuration`
(3000 ms) later, `processFrame` emits `speechEnd` with reason
`max_duration` (the minimum-duration rule cannot block it) immediately
followed by a continuation `speechStart`, and reopens an empty active
segment timed at the current frame. -/
theorem c3_max_duration_split (s : VADState) (now t0 : Nat) (energy : ℚ) (frame : List ℚ)
    (hs : s.isSpeaking = true) (ht : s.speechStartTime = some t0) (ht0 : t0 ≠ 0)
    (hmax : s.maxChunkDuration = 3000) (hmin : s.minChunkDuration = 1000)
    (helapsed : t0 + 3000 ≤ now) :
    (processFrame now energy frame s).2 =
      [Event.speechEnd (s.audioBuffer ++ frame) ((now : Int) - (t0 : Int)) (some t0)
        .max_duration,
       Event.speechStart true] ∧
    (processFrame now energy frame s).1.isSpeaking = true ∧
    (processFrame now energy frame s).1.speechStartTime = some now ∧
    (processFrame now energy frame s).1.audioBuffer = [] := by
  have hcond : (now : Int) - (t0 : Int) ≥ ((3000 : Nat) : Int) := by omega
  have hcond2 : (now : Int) - (t0 : Int) ≥ ((1000 : Nat) : Int) := by omega
  obtain ⟨u1, u2, u3, u4, u5, u6, u7, u8⟩ :=
    updateNoiseFloor_proj energy (detectSpeech energy s) s
  obtain ⟨t1, t2, t3, t4, t5, t6, t7, t8⟩ :=
    transitionStep_proj now (detectSpeech energy s)
      { updateNoiseFloor energy (detectSpeech energy s) s with
          audioBuffer := (updateNoiseFloor energy (detectSpeech energy s) s).audioBuffer
            ++ frame }
  set S3 := transitionStep now (detectSpeech energy s)
      { updateNoiseFloor energy (detectSpeech energy s) s with
          audioBuffer := (updateNoiseFloor energy (detectSpeech energy s) s).audioBuffer
            ++ frame } with hS3
  have f1 : S3.isSpeaking = true := t1.trans (u1.trans hs)
  have f2 : S3.speechStartTime = some t0 := t2.trans (u2.trans ht)
  have f6 : S3.maxChunkDuration = 3000 := t6.trans (u6.trans hmax)
  have f7 : S3.minChunkDuration = 1000 := t7.trans (u7.trans hmin)
  have f3 : S3.audioBuffer = s.audioBuffer ++ frame := by
    rw [t3]
    show (updateNoiseFloor energy (detectSpeech energy s) s).audioBuffer ++ frame = _
    rw [u3]
  have hforce := maxDurationStep_force now t0 S3 f1 f2 ht0 f6 hcond
  obtain ⟨e1, e2, e3, e4⟩ :=
    force_end_result S3 now t0 (s.audioBuffer ++ frame) f1 f2 f7 f3 hcond2
  obtain ⟨g1, g2, g3⟩ :=
    handleSilenceTimeout_proj now (detectSpeech energy s) (maxDurationStep now S3).1
  have hpf1 : (processFrame now energy frame s).2 = (maxDurationStep now S3).2 := rfl
  have hpf2 : (processFrame now energy frame s).1 =
      handleSilenceTimeout now (detectSpeech energy s) (maxDurationStep now S3).1 := rfl
  refine ⟨?_, ?_, ?_, ?_⟩
  · rw [hpf1, hforce]; exact e1
  · rw [hpf2]; rw [g1, hforce]; exact e2
  · rw [hpf2]; rw [g2, hforce]; exact e3
  · rw [hpf2]; rw [g3, hforce]; exact e4

/-- Witness for C3: `sSpeak` (speaking since t = 1000 ms, buffer `[1, 1]`)
processes a frame `[2]` at t = 4000 ms. -/
theorem c3_max_duration_split_witness :
    sSpeak.isSpeaking = true ∧ sSpeak.speechStartTime = some 1000 ∧ (1000 : Nat) ≠ 0 ∧
    sSpeak.maxChunkDuration = 3000 ∧ sSpeak.minChunkDuration = 1000 ∧
    1000 + 3000 ≤ 4000 ∧
    ((processFrame 4000 0 [2] sSpeak).2 =
      [Event.speechEnd (sSpeak.audioBuffer ++ [2]) ((4000 : Int) - (1000 : Int)) (some 1000)
        .max_duration,
       Event.speechStart true] ∧
     (processFrame 4000 0 [2] sSpeak).1.isSpeaking = true ∧
     (processFrame 4000 0 [2] sSpeak).1.speechStartTime = some 4000 ∧
     (processFrame 4000 0 [2] sSpeak).1.audioBuffer = []) :=
  ⟨rfl, rfl, by decide, rfl, rfl, by decide,
    c3_max_duration_split sSpeak 4000 1000 0 [2] rfl rfl (by decide) rfl rfl (by decide)⟩

/-- C1, counterexample: in the run `c1trace` only the first frame is
classified speech, yet the detector emits `silenceTimeout` twice, because
the fired silence timer is rescheduled by the next non-speech frame; the
claim's "exactly once until the next speech frame" fails. -/
theorem c1_counterexample :
    ((runVAD cfgA c1trace).2.1.countP Event.isSilence) = 2 ∧
    (runVAD cfgA c1trace).2.2 = [true, false, false, false] := by decide

/-- C1 as amended: each firing of the silence timer emits exactly one
`silenceTimeout` and clears the timer (so one emission per scheduled
timer, but the next non-speech frame may schedule a new one), and any
frame classified speech resets the countdown: after `processFrame` on a
speech frame the silence timer is cleared and `lastSpeechTime` is the
current time. -/
theorem c1_amended_silence_alarm (s : VADState) (d now : Nat) (energy : ℚ)
    (frame : List ℚ) (h : detectSpeech energy s = true) :
    (fireSilence d s).2 = [Event.silenceTimeout] ∧
    (fireSilence d s).1.silenceTimer = .unset ∧
    (processFrame now energy frame s).1.silenceTimer = .unset ∧
    (processFrame now energy frame s).1.lastSpeechTime = some now := by
  have hpf : (processFrame now energy frame s).1 =
      handleSilenceTimeout now (detectSpeech energy s)
        (maxDurationStep now (transitionStep now (detectSpeech energy s)
          { updateNoiseFloor energy (detectSpeech energy s) s with
              audioBuffer := (updateNoiseFloor energy (detectSpeech energy s) s).audioBuffer
                ++ frame })).1 := rfl
  rw [hpf, h]
  exact ⟨rfl, rfl, (handleSilenceTimeout_speech now _).2,
    (handleSilenceTimeout_speech now _).1⟩

/-- Witness for C1 as amended, on `cfgB` with a full-scale speech frame. -/
theorem c1_amended_silence_alarm_witness :
    detectSpeech 1 cfgB = true ∧
    ((fireSilence 500 cfgB).2 = [Event.silenceTimeout] ∧
     (fireSilence 500 cfgB).1.silenceTimer = .unset ∧
     (processFrame 700 1 ones480 cfgB).1.silenceTimer = .unset ∧
     (processFrame 700 1 ones480 cfgB).1.lastSpeechTime = some 700) :=
  ⟨by decide, c1_amended_silence_alarm cfgB 500 700 1 ones480 (by decide)⟩

/-- C2, counterexample: one silent frame adapts the threshold state;
`reset()` keeps it, so the same 0.007-energy frame is classified speech
by the reset detector but non-speech by a freshly constructed one. -/
theorem c2_counterexample :
    (runVAD (reset sAdapt) [⟨2000, 7/1000, f7⟩]).2.2 = [true] ∧
    (runVAD cfgB [⟨2000, 7/1000, f7⟩]).2.2 = [false] := by decide

/-- C2 as amended: `reset()` followed by any input behaves exactly like a
freshly constructed detector whose `noiseFloor` and `adaptiveThreshold`
have been overridden with the adapted values; in particular all timers,
buffers and timestamps are cleared, so no timer scheduled before the
reset can have any effect afterwards. -/
theorem c2_amended_reset_fresh_modulo_threshold (s : VADState) (tr : List TimedFrame)
    (h1 : s.speechStartDelay = 300) (h2 : s.speechEndDelay = 1000)
    (h3 : s.maxChunkDuration = 3000) (h4 : s.minChunkDuration = 1000)
    (h5 : s.frameSize = s.sampleRate * 3 / 100) :
    runVAD (reset s) tr =
      runVAD { VADState.init s.sampleRate s.energyThreshold s.silenceTimeout with
                 noiseFloor := s.noiseFloor, adaptiveThreshold := s.adaptiveThreshold } tr := by
  have hstate : reset s =
      { VADState.init s.sampleRate s.energyThreshold s.silenceTimeout with
          noiseFloor := s.noiseFloor, adaptiveThreshold := s.adaptiveThreshold } := by
    unfold reset VADState.init
    ext <;> simp [h1, h2, h3, h4, h5]
  rw [hstate]

/-- Witness for C2 as amended, on `sSpeak` with a one-frame input. -/
theorem c2_amended_reset_fresh_modulo_threshold_witness :
    sSpeak.speechStartDelay = 300 ∧ sSpeak.speechEndDelay = 1000 ∧
    sSpeak.maxChunkDuration = 3000 ∧ sSpeak.minChunkDuration = 1000 ∧
    sSpeak.frameSize = sSpeak.sampleRate * 3 / 100 ∧
    runVAD (reset sSpeak) [⟨100, 0, []⟩] =
      runVAD { VADState.init sSpeak.sampleRate sSpeak.energyThreshold sSpeak.silenceTimeout with
                 noiseFloor := sSpeak.noiseFloor,
                 adaptiveThreshold := sSpeak.adaptiveThreshold } [⟨100, 0, []⟩] :=
  ⟨rfl, rfl, rfl, rfl, by decide,
    c2_amended_reset_fresh_modulo_threshold sSpeak [⟨100, 0, []⟩] rfl rfl rfl rfl (by decide)⟩

end NiriVAD
